/-
Verification of the Mala-booking service lifecycle (routers/services.py and
utils/cloudinary.py) against its specification.

The Python code is shallowly embedded: each handler becomes a pure Lean
function from an explicit application state (record store contents, list
cache contents, next record id) and oracles for the external Cloudinary
host (upload outcome, destroy outcome) to the pair of the resulting state
and an `Except`-style response, mirroring the FastAPI handlers that either
return a value or raise an `HTTPException`.

The cache helpers (`get_cached_service`, `invalidate_services_cache`,
`cache_services_response`) live in `app/utils/cache.py`, which is not among
the provided sources; they are modelled from the specification (spec §4.3),
as are the pydantic schemas and the ORM model fields (spec §3).
-/
import Mathlib

/-! ## Python string primitives

The Python code manipulates strings with `split`, `startswith`, `in`
(substring test) and `'/'.join`.  These are re-implemented structurally
over `List Char` so that every use reduces by `decide`/`rfl`. -/

/-- Python `pre == s[:len(pre)]`, i.e. `s.startswith(pre)`, on char lists. -/
def charsStartWith : List Char → List Char → Bool
  | [], _ => true
  | _ :: _, [] => false
  | a :: as, b :: bs => a == b && charsStartWith as bs

/-- Python `pat in s` (substring containment) on char lists. -/
def charsContain (pat : List Char) : List Char → Bool
  | [] => charsStartWith pat []
  | x :: xs => charsStartWith pat (x :: xs) || charsContain pat xs

/-- Python `s.split(c)` for a one-character separator: splits at every
occurrence, keeping empty pieces; `"".split(c) == [""]`. -/
def splitCharAux (c : Char) : List Char → List Char → List (List Char)
  | [], acc => [acc.reverse]
  | x :: xs, acc =>
    if x == c then acc.reverse :: splitCharAux c xs []
    else splitCharAux c xs (x :: acc)

def splitChar (c : Char) (s : List Char) : List (List Char) :=
  splitCharAux c s []

/-- Python `c.join(pieces)` on char lists. -/
def joinWith (c : Char) : List (List Char) → List Char
  | [] => []
  | [x] => x
  | x :: y :: rest => x ++ c :: joinWith c (y :: rest)

/-- Python `s.startswith(pre)` on strings. -/
def pyStartsWith (s pre : String) : Bool :=
  charsStartWith pre.data s.data

/-- Python `pat in s` on strings. -/
def pyContains (s pat : String) : Bool :=
  charsContain pat.data s.data

/-- Python `s.split(c)` on strings. -/
def pySplit (s : String) (c : Char) : List String :=
  (splitChar c s.data).map String.mk

/-- Python `s.split(c)[0]`: the part before the first occurrence of `c`
(the whole string when `c` does not occur). -/
def pySplitHead (s : String) (c : Char) : String :=
  (pySplit s c).headD ""

/-- Python `s.split(",", 1)[1]`: everything after the first comma, or an
`IndexError` (`none`) when the string holds no comma. -/
def afterFirstComma (s : String) : Option String :=
  match pySplit s ',' with
  | [] => none
  | [_] => none
  | _ :: rest => some (String.intercalate "," rest)

/-- Python truthiness of an optional string: `None` and `""` are falsy. -/
def isTruthyStr : Option String → Bool
  | none => false
  | some s => !s.data.isEmpty

/-! ## Blob Store Adapter (app/utils/cloudinary.py) -/

/-- `extract_public_id` from `app/utils/cloudinary.py`, line for line:
empty input gives `None`; an input without the `res.cloudinary.com`
marker is treated as an already-bare id and only split at the first dot;
otherwise the path after the `upload` segment (minus a leading
`v`-segment and the extension) is returned, with any exception
(`'upload'` absent, or nothing after it) turned into `None`. -/
def extract_public_id (url : String) : Option String :=
  if url.data.isEmpty then none
  else if !(pyContains url "res.cloudinary.com") then
    some (pySplitHead url '.')
  else
    let parts := pySplit url '/'
    match parts.findIdx? (fun p => p == "upload") with
    | none => none
    | some uploadIndex =>
      match parts.drop (uploadIndex + 1) with
      | [] => none
      | first :: rest =>
        let public_id_parts := if pyStartsWith first "v" then rest else first :: rest
        let public_id := String.intercalate "/" public_id_parts
        some (pySplitHead public_id '.')

/-- The raw result of `cloudinary.uploader.upload`: the fields the adapter
reads from the host response. -/
structure CloudinaryRaw where
  public_id : String
  secure_url : String
  format : String
deriving Repr, DecidableEq

/-- What `upload_image_cloudinary` returns on success. -/
structure UploadResult where
  public_id : String
  url : String
  format : String
deriving Repr, DecidableEq

/-- A raised `fastapi.HTTPException`: status code and detail message. -/
structure HTTPError where
  status : Nat
  detail : String
deriving Repr, DecidableEq

/-- The remote host behind `cloudinary.uploader.upload`, as an oracle from
(file argument, folder) to either a host response or the message of a
raised exception. -/
def CloudinaryUploader : Type := String → String → Except String CloudinaryRaw

/-- The remote host behind `cloudinary.uploader.destroy`, as an oracle from
public id to the `result` field of the host response (`none` models a
raised exception). -/
def CloudinaryDestroyer : Type := String → Option String

/-- `upload_image_cloudinary` from `app/utils/cloudinary.py`: strips a
`data:` URL prefix (Python `split(",", 1)[1]`, an `IndexError` when no
comma follows), re-wraps the payload as a data URL, calls the host, and
converts any exception into an `HTTPException` with status 400 whose
detail names the underlying cause. -/
def upload_image_cloudinary (uploader : CloudinaryUploader)
    (file_base64 : String) (folder : String) : Except HTTPError UploadResult :=
  let payload? : Option String :=
    if pyStartsWith file_base64 "data:" then afterFirstComma file_base64
    else some file_base64
  match payload? with
  | none => Except.error ⟨400, "Image upload failed: list index out of range"⟩
  | some payload =>
    match uploader ("data:image/png;base64," ++ payload) folder with
    | Except.error e => Except.error ⟨400, "Image upload failed: " ++ e⟩
    | Except.ok raw => Except.ok ⟨raw.public_id, raw.secure_url, raw.format⟩

/-- `delete_image_from_cloudinary` from `app/utils/cloudinary.py`: returns
`true` exactly when the host confirms `result == 'ok'`; any other
response, and any exception, yields `false`. -/
def delete_image_from_cloudinary (destroyer : CloudinaryDestroyer)
    (public_id : String) : Bool :=
  destroyer public_id == some "ok"

/-! ## Data model (spec §3; `models.py`/`schemas.py` are not among the
provided sources, so the record and payload fields are modelled from the
specification and from the serialization in `read_services`). -/

/-- A service record as stored in the Record Store.  Timestamps are
store-assigned and irrelevant to every claim; they are kept as opaque
naturals. -/
structure Service where
  service_id : Nat
  name : String
  description : String
  duration : Nat
  price : Nat
  image_url : Option String
  salon_id : Nat
  created_at : Nat
  updated_at : Nat
deriving Repr, DecidableEq

/-- The create payload (`schemas.ServiceCreate`), modelled from the spec:
the record fields plus an optional base64 image payload. -/
structure ServiceCreate where
  name : String
  description : String
  duration : Nat
  price : Nat
  salon_id : Nat
  image_base64 : Option String
deriving Repr, DecidableEq

/-- The update payload (`schemas.ServiceUpdate`), modelled from the spec:
every regular field optional (omitted/null fields are left unchanged),
plus the optional base64 image payload and the `remove_image` flag. -/
structure ServiceUpdate where
  name : Option String
  description : Option String
  duration : Option Nat
  price : Option Nat
  salon_id : Option Nat
  image_base64 : Option String
  remove_image : Bool
deriving Repr, DecidableEq

/-- The response of the delete endpoints (`schemas.ImageDeleteResponse`). -/
structure DeleteResponse where
  success : Bool
  message : String
  public_id : Option String
deriving Repr, DecidableEq

/-- The application state a handler touches: the Record Store contents,
the List Cache contents (`none` = invalid/miss), and the id the store
will assign to the next created record. -/
structure AppState where
  records : List Service
  cache : Option (List Service)
  nextId : Nat
deriving Repr, DecidableEq

/-! ## List Cache (app/utils/cache.py is not among the provided sources). -/

/-- Modelled from the spec: `app/utils/cache.py` is missing from the
sources; spec §4.3 `get()` returns the cached sequence if valid, else
signals a miss. -/
def get_cached_service (st : AppState) : Option (List Service) :=
  st.cache

/-- Modelled from the spec: `app/utils/cache.py` is missing from the
sources; spec §4.3 `invalidate()` marks the cache invalid (idempotent,
never raises). -/
def invalidate_services_cache (st : AppState) : AppState :=
  { st with cache := none }

/-- Modelled from the spec: `app/utils/cache.py` is missing from the
sources; spec §4.3 `populate(sequence)` replaces the cached content and
marks it valid. -/
def cache_services_response (st : AppState) (l : List Service) : AppState :=
  { st with cache := some l }

/-! ## Service Lifecycle Manager (app/routers/services.py) -/

/-- `create_service`: upload the image first when a payload is supplied
(aborting on upload failure before any store write), insert the record,
invalidate the cache, return the new record. -/
def create_service (st : AppState) (service : ServiceCreate)
    (uploader : CloudinaryUploader) : AppState × Except HTTPError Service :=
  let image_url? : Except HTTPError (Option String) :=
    if isTruthyStr service.image_base64 then
      match upload_image_cloudinary uploader (service.image_base64.getD "") "services/images" with
      | Except.error e => Except.error e
      | Except.ok r => Except.ok (some r.url)
    else Except.ok none
  match image_url? with
  | Except.error e => (st, Except.error e)
  | Except.ok img =>
    let db_service : Service :=
      { service_id := st.nextId
        name := service.name
        description := service.description
        duration := service.duration
        price := service.price
        image_url := img
        salon_id := service.salon_id
        created_at := st.nextId
        updated_at := st.nextId }
    let st1 : AppState := { st with records := st.records ++ [db_service], nextId := st.nextId + 1 }
    let st2 := invalidate_services_cache st1
    (st2, Except.ok db_service)

/-- Python truthiness of `get_cached_service`'s result: `None` and the
empty list are falsy, so an empty cached sequence falls through to the
store query. -/
def truthyCache : Option (List Service) → Bool
  | none => false
  | some l => !l.isEmpty

/-- Python list slicing `l[a : b]` with step 1: negative bounds count from
the end, bounds are clamped into `[0, len]`. -/
def pySlice {α : Type} (l : List α) (a b : Int) : List α :=
  (l.take (if b < 0 then max 0 ((l.length : Int) + b) else min b (l.length : Int)).toNat).drop
    (if a < 0 then max 0 ((l.length : Int) + a) else min a (l.length : Int)).toNat

/-- The body of `read_services` after parameter validation: cache probe,
slice on a (truthy) hit; on a miss query the store page, raise 404 on an
empty page, else populate the cache with that same page and return it. -/
def read_services_page (st : AppState) (skip limit : Int) :
    AppState × Except HTTPError (List Service) :=
  let cached_services := get_cached_service st
  if truthyCache cached_services then
    (st, Except.ok (pySlice (cached_services.getD []) skip (skip + limit)))
  else
    let results := (st.records.drop skip.toNat).take limit.toNat
    if results.isEmpty then
      (st, Except.error ⟨404, "No Services Found"⟩)
    else
      (cache_services_response st results, Except.ok results)

/-- `read_services`: clamp `limit` to ≤ 100 and `skip` to ≥ 0 exactly as
the source does, then run the cache/store body on the clamped values. -/
def read_services (st : AppState) (skip limit : Int) :
    AppState × Except HTTPError (List Service) :=
  let limit := if limit > 100 then 100 else limit
  let skip := if skip < 0 then 0 else skip
  read_services_page st skip limit

/-- The first `setattr` loop of `update_service` (and, restricted to the
regular columns, the second): every non-null regular field of the payload
overwrites the record's field; `image_url` is not a payload field and is
untouched. -/
def applyRegularFields (r : Service) (u : ServiceUpdate) : Service :=
  { r with
    name := u.name.getD r.name
    description := u.description.getD r.description
    duration := u.duration.getD r.duration
    price := u.price.getD r.price
    salon_id := u.salon_id.getD r.salon_id }

/-- `update_service`: 404 when absent; apply non-null payload fields; the
remove-image step (clear the reference only when the id resolves and the
host confirms deletion) and the new-image step (upload, set the reference
to the new URL) are two independent conditionals evaluated in that order,
with an upload failure aborting before the commit; then persist,
invalidate the cache and return the updated record.
`update_data["image_url"]` is tracked as `Option (Option String)`:
`none` = key absent, `some v` = key set to `v`. -/
def update_service (st : AppState) (service_id : Nat) (service_update : ServiceUpdate)
    (uploader : CloudinaryUploader) (destroyer : CloudinaryDestroyer) :
    AppState × Except HTTPError Service :=
  match st.records.find? (fun r => r.service_id == service_id) with
  | none => (st, Except.error ⟨404, "Service was not found"⟩)
  | some db0 =>
    let db1 := applyRegularFields db0 service_update
    let imgAfterRemove : Option (Option String) :=
      if service_update.remove_image && isTruthyStr db1.image_url then
        match extract_public_id (db1.image_url.getD "") with
        | some public_id =>
          if delete_image_from_cloudinary destroyer public_id then some none else none
        | none => none
      else none
    let uploadStep : Except HTTPError (Option UploadResult) :=
      if isTruthyStr service_update.image_base64 then
        match upload_image_cloudinary uploader (service_update.image_base64.getD "") "services/images" with
        | Except.error e => Except.error e
        | Except.ok r => Except.ok (some r)
      else Except.ok none
    match uploadStep with
    | Except.error e => (st, Except.error e)
    | Except.ok uploadRes? =>
      let imgOverride : Option (Option String) :=
        match uploadRes? with
        | some r => some (some r.url)
        | none => imgAfterRemove
      let db2 := applyRegularFields db1 service_update
      let db2 : Service :=
        match imgOverride with
        | some v => { db2 with image_url := v }
        | none => db2
      let st1 : AppState :=
        { st with records := st.records.map (fun r => if r.service_id == service_id then db2 else r) }
      let st2 := invalidate_services_cache st1
      (st2, Except.ok db2)

/-- `delete_service`: 404 when absent; for the single `image_url` asset,
when the reference is truthy and its public id resolves, attempt the blob
deletion and record the boolean outcome under the key `image_url`; then
delete the record, invalidate the cache, and build the summary.
`deletion_results` is the at-most-one-entry dict, modelled as
`Option Bool` (`some b` = key `image_url` present with outcome `b`). -/
def delete_service (st : AppState) (service_id : Nat)
    (destroyer : CloudinaryDestroyer) : AppState × Except HTTPError DeleteResponse :=
  match st.records.find? (fun r => r.service_id == service_id) with
  | none => (st, Except.error ⟨404, "Service not found"⟩)
  | some db0 =>
    let deletion_results : Option Bool :=
      if isTruthyStr db0.image_url then
        match extract_public_id (db0.image_url.getD "") with
        | some public_id => some (delete_image_from_cloudinary destroyer public_id)
        | none => none
      else none
    let st1 : AppState :=
      { st with records := st.records.filter (fun r => !(r.service_id == service_id)) }
    let st2 := invalidate_services_cache st1
    let deletedCount : Nat := match deletion_results with | some true => 1 | _ => 0
    let assetsJoined : String := match deletion_results with | some true => "image" | _ => "none"
    let message :=
      "Service deleted successfully. Deleted " ++ toString deletedCount
        ++ " associated assets: " ++ assetsJoined
    let public_id : Option String :=
      match deletion_results with
      | none => none
      | some _ => some "image_url"
    (st2, Except.ok ⟨true, message, public_id⟩)

/-! ## Concrete fixtures for counterexamples and witnesses -/

/-- A canonical stored image reference whose public id resolves to
`services/images/abc`. -/
def oldImageUrl : String :=
  "https://res.cloudinary.com/demo/image/upload/v1/services/images/abc.jpg"

/-- The URL the upload oracle `upOk` hands back for a fresh upload. -/
def newImageUrl : String :=
  "https://res.cloudinary.com/demo/image/upload/v2/services/images/fresh.png"

/-- A stored record that owns an image. -/
def svcWithImage : Service :=
  { service_id := 1, name := "Cut", description := "Hair cut", duration := 30,
    price := 20, image_url := some oldImageUrl, salon_id := 7,
    created_at := 0, updated_at := 0 }

/-- A state holding `svcWithImage`, with a valid cache of the full listing. -/
def stWithImage : AppState :=
  { records := [svcWithImage], cache := some [svcWithImage], nextId := 2 }

/-- The empty store with an invalid cache. -/
def stEmpty : AppState := { records := [], cache := none, nextId := 1 }

/-- Upload oracle: the host accepts and answers with `newImageUrl`. -/
def upOk : CloudinaryUploader := fun _ _ =>
  Except.ok ⟨"services/images/fresh", newImageUrl, "png"⟩

/-- Upload oracle: the host raises an exception with message `boom`. -/
def upBoom : CloudinaryUploader := fun _ _ => Except.error "boom"

/-- Destroy oracle: the host confirms every deletion. -/
def desOk : CloudinaryDestroyer := fun _ => some "ok"

/-- Destroy oracle: the host answers `not found`, so deletion fails. -/
def desNotFound : CloudinaryDestroyer := fun _ => some "not found"

/-- A create payload without an image. -/
def reqPlain : ServiceCreate :=
  { name := "Cut", description := "Hair cut", duration := 30, price := 20,
    salon_id := 7, image_base64 := none }

/-- A create payload with an image. -/
def reqWithImage : ServiceCreate :=
  { name := "Cut", description := "Hair cut", duration := 30, price := 20,
    salon_id := 7, image_base64 := some "aW1n" }

/-- An update payload requesting image removal AND supplying a new image. -/
def updBoth : ServiceUpdate :=
  { name := none, description := none, duration := none, price := none,
    salon_id := none, image_base64 := some "aW1n", remove_image := true }

/-- An update payload requesting only image removal. -/
def updRemoveOnly : ServiceUpdate :=
  { name := none, description := none, duration := none, price := none,
    salon_id := none, image_base64 := none, remove_image := true }

/-- An update payload touching nothing. -/
def updPlain : ServiceUpdate :=
  { name := none, description := none, duration := none, price := none,
    salon_id := none, image_base64 := none, remove_image := false }

/-! ## Helper lemmas -/

/-- The source clamp `if limit > 100 then 100 else limit` is `min`. -/
theorem clamp_limit_eq_min (limit : Int) :
    (if limit > 100 then 100 else limit) = min limit 100 := by
  split
  · exact (min_eq_right (by omega)).symm
  · exact (min_eq_left (by omega)).symm

/-- The source clamp `if skip < 0 then 0 else skip` is `max`. -/
theorem clamp_skip_eq_max (skip : Int) :
    (if skip < 0 then 0 else skip) = max skip 0 := by
  split
  · exact (max_eq_right (by omega)).symm
  · exact (max_eq_left (by omega)).symm

/-- Every error `upload_image_cloudinary` produces carries status 400. -/
theorem upload_image_cloudinary_error_status (u : CloudinaryUploader)
    (f folder : String) (e : HTTPError)
    (h : upload_image_cloudinary u f folder = Except.error e) :
    e.status = 400 := by
  unfold upload_image_cloudinary at h
  dsimp only at h
  split at h
  · simp only [Except.error.injEq] at h
    subst h; rfl
  · split at h
    · simp only [Except.error.injEq] at h
      subst h; rfl
    · simp at h

/-- A Python slice whose start is at or past the list length is empty. -/
theorem pySlice_nil_of_le {α : Type} (l : List α) (a b : Int)
    (ha : 0 ≤ a) (hlen : (l.length : Int) ≤ a) : pySlice l a b = [] := by
  unfold pySlice
  rw [if_neg (not_lt.mpr ha), min_eq_right hlen]
  apply List.drop_eq_nil_of_le
  calc (l.take _).length ≤ l.length := by
        rw [List.length_take]; exact min_le_right _ _
    _ = ((l.length : Int)).toNat := by simp

/-! ## Claims -/

/-- C1: every mutating operation (create, update, delete) runs the List
Cache invalidation synchronously before returning its result, so after a
mutation completes successfully the cache is marked invalid. -/
theorem C1_mutations_invalidate_cache :
    (∀ st req uploader st' r,
       create_service st req uploader = (st', Except.ok r) → st'.cache = none) ∧
    (∀ st sid su uploader destroyer st' r,
       update_service st sid su uploader destroyer = (st', Except.ok r) → st'.cache = none) ∧
    (∀ st sid destroyer st' r,
       delete_service st sid destroyer = (st', Except.ok r) → st'.cache = none) := by
  refine ⟨?_, ?_, ?_⟩
  · intro st req uploader st' r h
    unfold create_service at h
    dsimp only at h
    split at h
    · simp at h
    · rw [Prod.mk.injEq] at h
      rw [← h.1]; rfl
  · intro st sid su uploader destroyer st' r h
    unfold update_service at h
    split at h
    · simp at h
    · dsimp only at h
      split at h
      · simp at h
      · rw [Prod.mk.injEq] at h
        rw [← h.1]; rfl
  · intro st sid destroyer st' r h
    unfold delete_service at h
    split at h
    · simp at h
    · dsimp only at h
      rw [Prod.mk.injEq] at h
      rw [← h.1]; rfl

/-- Witness for C1: a successful create on the empty store, a successful
no-op update and a successful delete on a one-record store, each leaving
the cache invalid. -/
theorem C1_mutations_invalidate_cache_witness :
    (create_service stEmpty reqPlain upBoom
        = ({ records := [{ service_id := 1, name := "Cut", description := "Hair cut",
                           duration := 30, price := 20, image_url := none, salon_id := 7,
                           created_at := 1, updated_at := 1 }], cache := none, nextId := 2 },
           Except.ok { service_id := 1, name := "Cut", description := "Hair cut",
                       duration := 30, price := 20, image_url := none, salon_id := 7,
                       created_at := 1, updated_at := 1 }) ∧
     (AppState.mk [{ service_id := 1, name := "Cut", description := "Hair cut",
                     duration := 30, price := 20, image_url := none, salon_id := 7,
                     created_at := 1, updated_at := 1 }] none 2).cache = none) ∧
    (update_service stWithImage 1 updPlain upBoom desOk
        = ({ records := [svcWithImage], cache := none, nextId := 2 }, Except.ok svcWithImage) ∧
     (AppState.mk [svcWithImage] none 2).cache = none) ∧
    (delete_service stWithImage 1 desOk
        = ({ records := [], cache := none, nextId := 2 },
           Except.ok ⟨true, "Service deleted successfully. Deleted 1 associated assets: image",
                      some "image_url"⟩) ∧
     (AppState.mk [] none 2).cache = none) :=
  ⟨⟨rfl, C1_mutations_invalidate_cache.1 stEmpty reqPlain upBoom _ _ rfl⟩,
   ⟨rfl, C1_mutations_invalidate_cache.2.1 stWithImage 1 updPlain upBoom desOk _ _ rfl⟩,
   ⟨rfl, C1_mutations_invalidate_cache.2.2 stWithImage 1 desOk _ _ rfl⟩⟩

/-- C2: when a create request supplies an image payload and the upload
fails, the operation aborts with the 400 upload error and the state —
Record Store included — is exactly the pre-state: no record was written. -/
theorem C2_create_upload_failure_writes_nothing (st : AppState)
    (req : ServiceCreate) (uploader : CloudinaryUploader) (e : HTTPError)
    (himg : isTruthyStr req.image_base64 = true)
    (hup : upload_image_cloudinary uploader (req.image_base64.getD "") "services/images"
             = Except.error e) :
    create_service st req uploader = (st, Except.error e) ∧ e.status = 400 := by
  refine ⟨?_, upload_image_cloudinary_error_status _ _ _ _ hup⟩
  simp only [create_service, himg, if_true, hup]

/-- Witness for C2: a create with an image payload against a host that
raises `boom` aborts with the 400 error and leaves the empty store empty. -/
theorem C2_create_upload_failure_writes_nothing_witness :
    isTruthyStr reqWithImage.image_base64 = true ∧
    upload_image_cloudinary upBoom (reqWithImage.image_base64.getD "") "services/images"
        = Except.error ⟨400, "Image upload failed: boom"⟩ ∧
    (create_service stEmpty reqWithImage upBoom
        = (stEmpty, Except.error ⟨400, "Image upload failed: boom"⟩) ∧
     (HTTPError.mk 400 "Image upload failed: boom").status = 400) :=
  ⟨by decide, rfl,
   C2_create_upload_failure_writes_nothing stEmpty reqWithImage upBoom
     ⟨400, "Image upload failed: boom"⟩ (by decide) rfl⟩

/-- C3 counterexample: the spec's example URL uses the generic host
`host`, which lacks the `res.cloudinary.com` marker the code requires, so
the code takes the bare-id branch and does not return
`services/images/abc`. -/
theorem C3_counterexample :
    extract_public_id "https://host/demo/image/upload/v123/services/images/abc.jpg"
      ≠ some "services/images/abc" := by decide

/-- C3 amended: on a canonical reference URL whose host contains the
`res.cloudinary.com` marker, `extract_public_id` parses the path after
the upload marker, drops the version segment and strips the extension,
returning `services/images/abc`; the spec's generic-host URL lacks the
marker and is instead treated as an already-bare id with only the
extension stripped. -/
theorem C3_amended_marker_url_parsed :
    extract_public_id "https://res.cloudinary.com/demo/image/upload/v123/services/images/abc.jpg"
        = some "services/images/abc" ∧
    extract_public_id "https://host/demo/image/upload/v123/services/images/abc.jpg"
        = some "https://host/demo/image/upload/v123/services/images/abc" :=
  ⟨by decide, by decide⟩

/-- C4 counterexample: `extract_public_id "not a valid url"` is not
`none` — the input lacks the host marker, so it is treated as an
already-bare id. -/
theorem C4_counterexample :
    extract_public_id "not a valid url" ≠ none := by decide

/-- C4 amended: on the input `not a valid url` the function neither
raises nor returns `none`; the input is treated as an already-bare id,
and since it holds no dot there is no extension to strip, so the input
comes back unchanged. -/
theorem C4_amended_invalid_url_treated_as_bare_id :
    extract_public_id "not a valid url" = some "not a valid url" := by decide

/-- C5 counterexample: an update that both requests `remove_image` on a
record with a current image (with the host confirming the deletion) and
supplies a new image payload does upload the new image: the returned
record carries the freshly uploaded URL rather than the cleared
reference the claimed `else if` ordering would produce. -/
theorem C5_counterexample :
    (match (update_service stWithImage 1 updBoth upOk desOk).2 with
      | Except.ok q => q.image_url
      | Except.error _ => none) = some newImageUrl ∧
    some newImageUrl ≠ (none : Option String) :=
  ⟨by decide, by decide⟩

/-- C5 amended: the remove-image and new-image steps are two independent
conditionals evaluated in that order, not an `if`/`else if`: whenever a
new image payload is supplied and its upload succeeds, the returned
record's image reference is the new upload URL, regardless of whether
the remove-image step applied. -/
theorem C5_amended_upload_step_unconditional (st : AppState) (sid : Nat)
    (su : ServiceUpdate) (uploader : CloudinaryUploader)
    (destroyer : CloudinaryDestroyer) (db0 : Service) (r : UploadResult)
    (hfind : st.records.find? (fun q => q.service_id == sid) = some db0)
    (himg : isTruthyStr su.image_base64 = true)
    (hup : upload_image_cloudinary uploader (su.image_base64.getD "") "services/images"
             = Except.ok r) :
    (update_service st sid su uploader destroyer).2
      = Except.ok { applyRegularFields (applyRegularFields db0 su) su with
                    image_url := some r.url } := by
  simp only [update_service, hfind, himg, if_true, hup]

/-- Witness for C5 amended: both image steps requested, the host confirms
the deletion and accepts the upload; the update returns the record with
the new URL. -/
theorem C5_amended_upload_step_unconditional_witness :
    stWithImage.records.find? (fun q => q.service_id == 1) = some svcWithImage ∧
    isTruthyStr updBoth.image_base64 = true ∧
    upload_image_cloudinary upOk (updBoth.image_base64.getD "") "services/images"
        = Except.ok ⟨"services/images/fresh", newImageUrl, "png"⟩ ∧
    (update_service stWithImage 1 updBoth upOk desOk).2
        = Except.ok { applyRegularFields (applyRegularFields svcWithImage updBoth) updBoth with
                      image_url := some (UploadResult.mk "services/images/fresh" newImageUrl "png").url } :=
  ⟨by decide, by decide, rfl,
   C5_amended_upload_step_unconditional stWithImage 1 updBoth upOk desOk svcWithImage
     ⟨"services/images/fresh", newImageUrl, "png"⟩ (by decide) (by decide) rfl⟩

/-- C6 counterexample: with `remove_image=true` on a record with an
image, a failing blob deletion, and a simultaneously supplied new image
payload, the image reference after the update is the new upload URL, not
the unchanged old reference the claim demands for every such request. -/
theorem C6_counterexample :
    (match (update_service stWithImage 1 updBoth upOk desNotFound).2 with
      | Except.ok q => q.image_url
      | Except.error _ => none) = some newImageUrl ∧
    some newImageUrl ≠ svcWithImage.image_url :=
  ⟨by decide, by decide⟩

/-- C6 amended: for an update with `remove_image=true` on a record with
an image reference and **no new image payload**, if the blob deletion
fails (the id does not resolve, or the host does not confirm), the
update still succeeds — no error is raised for this sub-step, the
regular fields are applied — and the record's image reference is
unchanged. -/
theorem C6_amended_remove_failure_keeps_reference (st : AppState) (sid : Nat)
    (su : ServiceUpdate) (uploader : CloudinaryUploader)
    (destroyer : CloudinaryDestroyer) (db0 : Service)
    (hfind : st.records.find? (fun q => q.service_id == sid) = some db0)
    (hrm : su.remove_image = true)
    (himg : isTruthyStr db0.image_url = true)
    (hnoimg : isTruthyStr su.image_base64 = false)
    (hdel : ∀ pid, extract_public_id (db0.image_url.getD "") = some pid →
              delete_image_from_cloudinary destroyer pid = false) :
    (update_service st sid su uploader destroyer).2
        = Except.ok (applyRegularFields (applyRegularFields db0 su) su) ∧
    (applyRegularFields (applyRegularFields db0 su) su).image_url = db0.image_url := by
  refine ⟨?_, rfl⟩
  have himg1 : isTruthyStr (applyRegularFields db0 su).image_url = true := himg
  simp only [update_service, hfind, hrm, Bool.true_and, himg1, if_true, hnoimg,
    Bool.false_eq_true, if_false]
  rcases hext : extract_public_id ((applyRegularFields db0 su).image_url.getD "") with _ | pid
  · simp only [hext]
  · have hd : delete_image_from_cloudinary destroyer pid = false := hdel pid hext
    simp only [hext, hd, Bool.false_eq_true, if_false]

/-- Witness for C6 amended: removal requested with no new payload, the
host answers `not found`; the update returns the record with its old
image reference intact. -/
theorem C6_amended_remove_failure_keeps_reference_witness :
    stWithImage.records.find? (fun q => q.service_id == 1) = some svcWithImage ∧
    updRemoveOnly.remove_image = true ∧
    isTruthyStr svcWithImage.image_url = true ∧
    isTruthyStr updRemoveOnly.image_base64 = false ∧
    ((update_service stWithImage 1 updRemoveOnly upBoom desNotFound).2
        = Except.ok (applyRegularFields (applyRegularFields svcWithImage updRemoveOnly) updRemoveOnly) ∧
     (applyRegularFields (applyRegularFields svcWithImage updRemoveOnly) updRemoveOnly).image_url
        = svcWithImage.image_url) :=
  ⟨by decide, rfl, by decide, by decide,
   C6_amended_remove_failure_keeps_reference stWithImage 1 updRemoveOnly upBoom desNotFound
     svcWithImage (by decide) rfl (by decide) (by decide) (fun _ _ => rfl)⟩

/-- C7: the delete summary's `public_id` field is built from
`list(deletion_results.keys())[0]`, which is the dict key `image_url`,
not the blob id of the deleted asset; and it is non-null whenever a blob
id was resolved, even when the deletion failed.  At the failing input —
deleting the service whose image is `oldImageUrl` with the host
confirming the deletion — the code answers `public_id = "image_url"`
while the asset's blob id is `services/images/abc`; with the host
refusing (`desNotFound`) it still answers `"image_url"` instead of the
claimed null. -/
theorem C7_delete_summary_reports_key_not_blob_id :
    (match (delete_service stWithImage 1 desOk).2 with
      | Except.ok resp => resp.public_id
      | Except.error _ => none) = some "image_url" ∧
    extract_public_id oldImageUrl = some "services/images/abc" ∧
    (match (delete_service stWithImage 1 desNotFound).2 with
      | Except.ok resp => resp.public_id
      | Except.error _ => none) = some "image_url" :=
  ⟨by decide, by decide, by decide⟩

/-- C8: for every list request, the effective limit is `min(limit, 100)`
and the effective offset is `max(skip, 0)`, applied before the cache or
the store is consulted. -/
theorem C8_pagination_clamped_before_cache_and_store (st : AppState) (skip limit : Int) :
    read_services st skip limit = read_services_page st (max skip 0) (min limit 100) := by
  unfold read_services
  dsimp only
  rw [clamp_limit_eq_min, clamp_skip_eq_max]

/-- C9: when the list operation misses the cache and the Record Store
returns an empty page, it signals the 404 `No Services Found` error
rather than returning an empty sequence. -/
theorem C9_empty_page_signals_not_found (st : AppState) (skip limit : Int)
    (hmiss : truthyCache (get_cached_service st) = false)
    (hempty : (st.records.drop ((max skip 0).toNat)).take ((min limit 100).toNat) = []) :
    read_services st skip limit = (st, Except.error ⟨404, "No Services Found"⟩) := by
  unfold read_services
  dsimp only
  rw [clamp_limit_eq_min, clamp_skip_eq_max]
  unfold read_services_page
  dsimp only
  rw [hmiss, hempty]
  simp

/-- Witness for C9: listing the empty store with the default
`(skip, limit) = (0, 100)` raises the 404. -/
theorem C9_empty_page_signals_not_found_witness :
    truthyCache (get_cached_service stEmpty) = false ∧
    (stEmpty.records.drop ((max (0 : Int) 0).toNat)).take ((min (100 : Int) 100).toNat) = [] ∧
    read_services stEmpty 0 100 = (stEmpty, Except.error ⟨404, "No Services Found"⟩) :=
  ⟨by decide, by decide,
   C9_empty_page_signals_not_found stEmpty 0 100 (by decide) (by decide)⟩

/-- C10: on a cache hit (a valid, non-empty cached sequence) the list
operation never signals NotFound: it returns the Python slice
`cached[skip : skip + limit]` of the cached sequence for the clamped
parameters, leaves the state untouched, and that slice is empty whenever
the clamped offset is at or past the cached length. -/
theorem C10_cache_hit_slices_and_never_404 (st : AppState) (c : List Service)
    (skip limit : Int) (hc : st.cache = some c) (hne : c ≠ []) :
    read_services st skip limit
        = (st, Except.ok (pySlice c (max skip 0) (max skip 0 + min limit 100))) ∧
    ((c.length : Int) ≤ max skip 0 →
      pySlice c (max skip 0) (max skip 0 + min limit 100) = []) := by
  constructor
  · unfold read_services
    dsimp only
    rw [clamp_limit_eq_min, clamp_skip_eq_max]
    unfold read_services_page get_cached_service
    dsimp only
    rw [hc]
    have ht : truthyCache (some c) = true := by
      cases c with
      | nil => exact absurd rfl hne
      | cons a as => rfl
    rw [ht]
    simp
  · intro h
    exact pySlice_nil_of_le c _ _ (le_max_right _ _) h

/-- Witness for C10: a one-record cache read with `skip = 5` past the
cached length returns the (empty) slice, not a 404. -/
theorem C10_cache_hit_slices_and_never_404_witness :
    stWithImage.cache = some [svcWithImage] ∧
    [svcWithImage] ≠ ([] : List Service) ∧
    (read_services stWithImage 5 100
        = (stWithImage,
           Except.ok (pySlice [svcWithImage] (max 5 0) (max 5 0 + min 100 100))) ∧
     (((List.length [svcWithImage] : Int) ≤ max 5 0) →
        pySlice [svcWithImage] (max 5 0) (max 5 0 + min 100 100) = [])) :=
  ⟨rfl, by decide,
   C10_cache_hit_slices_and_never_404 stWithImage [svcWithImage] 5 100 rfl (by decide)⟩


